import Mathlib

/-!
Shallow embedding of `src/split.rs` from the sfo-split repository.

The source code defines `Splittable<R, W>` (a combined object holding a read
part `r : R` and a write part `w : W`), which `split`s into an `RHalf` and a
`WHalf`.  The two halves share an `Arc<u8>` pairing token allocated freshly by
each `split` call; pairing is checked with `Arc::ptr_eq` (allocation identity,
never value comparison), and `unsplit` panics with "not a pair" when the two
halves do not share a token.

Modelling choices:
* `Arc` allocation identity is made explicit: an `Arc` value carries the
  address (`id`) of its backing allocation together with its payload, and
  `Arc::ptr_eq` compares addresses.  `Arc::clone` shares the allocation, so a
  clone is literally the same value in this model.
* Allocation itself is explicit state: `split` threads an allocator counter
  (the next unused address); the fresh token takes the current address and
  the counter advances by one.  Distinct `split` calls in one allocation
  trace therefore receive tokens with distinct addresses, exactly as distinct
  `Arc::new` calls return pointers to distinct live allocations.
* The panic in `unsplit` is modelled by `Option.none`; a normal return of a
  reconstructed `Splittable` is `Option.some`.
* Writing through a `&mut` reference returned by `deref_mut` / `get_w_mut` is
  modelled by a function taking the new value for the referenced field and
  returning the updated structure.
-/

namespace SfoSplit

/-- Model of `std::sync::Arc<α>`: a shared heap allocation carrying a payload.
`id` is the address of the backing allocation. -/
structure Arc (α : Type) where
  id : Nat
  val : α

/-- `Arc::ptr_eq`: compares the two allocation addresses, never the payloads. -/
def Arc.ptr_eq {α : Type} (a b : Arc α) : Bool :=
  a.id == b.id

/-- `Splittable<R, W>` (src/split.rs lines 7-10): the combined object holding
the read part `r` and the write part `w`. -/
structure Splittable (R W : Type) where
  r : R
  w : W

/-- `Splittable::new` (lines 13-18): wraps the two parts. -/
def Splittable.new {R W : Type} (r : R) (w : W) : Splittable R W :=
  ⟨r, w⟩

/-- `RHalf<R, W>` (lines 58-62): the read half, holding the pairing token `k`
and the read part `r`.  (`PhantomData` has no runtime content and is
omitted.)  The token payload is the `u8` value `0`, represented as `Nat`. -/
structure RHalf (R W : Type) where
  k : Arc Nat
  r : R

/-- `RHalf::new` (lines 65-71). -/
def RHalf.new {R W : Type} (r : R) (k : Arc Nat) : RHalf R W :=
  ⟨k, r⟩

/-- `WHalf<R, W>` (lines 99-103): the write half, holding the pairing token
`k` and the write part `w`. -/
structure WHalf (R W : Type) where
  k : Arc Nat
  w : W

/-- `WHalf::new` (lines 106-112). -/
def WHalf.new {R W : Type} (w : W) (k : Arc Nat) : WHalf R W :=
  ⟨k, w⟩

/-- `Splittable::split` (lines 20-26): consumes the combined object, allocates
one fresh token (`Arc::new(0)`), and returns the read half and the write half
both holding a handle to that same token.  The allocator counter `alloc` is
the next unused allocation address; it is threaded explicitly and returned
advanced by one. -/
def Splittable.split {R W : Type} (s : Splittable R W) (alloc : Nat) :
    (RHalf R W × WHalf R W) × Nat :=
  let key : Arc Nat := ⟨alloc, 0⟩
  ((RHalf.new s.r key, WHalf.new s.w key), alloc + 1)

/-- `Splittable::get_r` (lines 28-30). -/
def Splittable.get_r {R W : Type} (s : Splittable R W) : R :=
  s.r

/-- `Splittable::get_w` (lines 32-34). -/
def Splittable.get_w {R W : Type} (s : Splittable R W) : W :=
  s.w

/-- Effect of writing `x` through the reference returned by
`Splittable::get_r_mut` (lines 36-38), which is `&mut self.r`. -/
def Splittable.get_r_mut_set {R W : Type} (s : Splittable R W) (x : R) :
    Splittable R W :=
  { s with r := x }

/-- Effect of writing `y` through the reference returned by
`Splittable::get_w_mut` (lines 40-42), which is `&mut self.w`. -/
def Splittable.get_w_mut_set {R W : Type} (s : Splittable R W) (y : W) :
    Splittable R W :=
  { s with w := y }

/-- `Deref for Splittable` (lines 45-50): the combined object dereferences to
its read part `&self.r`. -/
def Splittable.deref {R W : Type} (s : Splittable R W) : R :=
  s.r

/-- Effect of writing `x` through the reference returned by
`DerefMut for Splittable` (lines 52-56), which is `&mut self.r`. -/
def Splittable.deref_mut_set {R W : Type} (s : Splittable R W) (x : R) :
    Splittable R W :=
  { s with r := x }

/-- `RHalf::is_pair_of` (lines 73-75): `Arc::ptr_eq(&self.k, &w.k)`. -/
def RHalf.is_pair_of {R W : Type} (rh : RHalf R W) (wh : WHalf R W) : Bool :=
  Arc.ptr_eq rh.k wh.k

/-- `RHalf::unsplit` (lines 77-83): panics ("not a pair", modelled as `none`)
when the halves are not a pair, otherwise rebuilds the combined object from
the two owned parts. -/
def RHalf.unsplit {R W : Type} (rh : RHalf R W) (wh : WHalf R W) :
    Option (Splittable R W) :=
  if !(rh.is_pair_of wh) then
    none
  else
    some (Splittable.new rh.r wh.w)

/-- `WHalf::is_pair_of` (lines 114-116): delegates to `RHalf::is_pair_of`. -/
def WHalf.is_pair_of {R W : Type} (wh : WHalf R W) (rh : RHalf R W) : Bool :=
  rh.is_pair_of wh

/-- `WHalf::unsplit` (lines 118-120): delegates to `RHalf::unsplit`. -/
def WHalf.unsplit {R W : Type} (wh : WHalf R W) (rh : RHalf R W) :
    Option (Splittable R W) :=
  rh.unsplit wh

/-- `Deref for RHalf` (lines 86-91): the read half dereferences to `&self.r`. -/
def RHalf.deref {R W : Type} (rh : RHalf R W) : R :=
  rh.r

/-- `Deref for WHalf` (lines 129-134): the write half dereferences to `&self.w`. -/
def WHalf.deref {R W : Type} (wh : WHalf R W) : W :=
  wh.w

end SfoSplit

namespace SfoSplit

/-- C1: for every combined object built from values `r` and `w`, after
`split()` the resulting read half and write half pair with each other:
`read_half.is_pair_of(write_half)` and `write_half.is_pair_of(read_half)`
both return `true`. -/
theorem split_halves_pair_with_each_other {R W : Type} (r : R) (w : W)
    (alloc : Nat) :
    ((Splittable.new r w).split alloc).1.1.is_pair_of
        ((Splittable.new r w).split alloc).1.2 = true ∧
    ((Splittable.new r w).split alloc).1.2.is_pair_of
        ((Splittable.new r w).split alloc).1.1 = true := by
  constructor <;>
    simp [Splittable.split, Splittable.new, RHalf.new, WHalf.new,
      RHalf.is_pair_of, WHalf.is_pair_of, Arc.ptr_eq]

/-- C2: halves of two independently created and split combined objects never
pair across splits — `is_pair_of(r1, w2)` and `is_pair_of(r2, w1)` are both
`false` — even though the two tokens hold equal payloads (pairing is decided
by allocation identity, never by value comparison). -/
theorem independent_splits_never_pair {R W : Type} (s1 s2 : Splittable R W)
    (alloc : Nat) :
    ((s1.split alloc).1.1.is_pair_of
        ((s2.split (s1.split alloc).2).1.2) = false) ∧
    (((s2.split (s1.split alloc).2).1.1).is_pair_of
        ((s1.split alloc).1.2) = false) ∧
    ((s1.split alloc).1.1.k.val = ((s2.split (s1.split alloc).2).1.2).k.val) := by
  refine ⟨?_, ?_, ?_⟩ <;>
    simp [Splittable.split, RHalf.new, WHalf.new, RHalf.is_pair_of,
      Arc.ptr_eq]

/-- C3: `unsplit` returns a reconstructed combined object exactly on a
pair-matched read half and write half: `(rh.unsplit wh).isSome` coincides
with `rh.is_pair_of wh`; for two splits in one allocation trace, each half
unsplits with its own sibling and deterministically hits the fatal mismatch
path (modelled as `none`) with the other split's half. -/
theorem unsplit_succeeds_iff_pair_matched {R W : Type}
    (s1 s2 : Splittable R W) (alloc : Nat) :
    (∀ (rh : RHalf R W) (wh : WHalf R W),
      (rh.unsplit wh).isSome = rh.is_pair_of wh) ∧
    ((s1.split alloc).1.1.unsplit (s1.split alloc).1.2
        = some (Splittable.new s1.r s1.w)) ∧
    (((s2.split (s1.split alloc).2).1.1).unsplit
        ((s2.split (s1.split alloc).2).1.2)
        = some (Splittable.new s2.r s2.w)) ∧
    ((s1.split alloc).1.1.unsplit ((s2.split (s1.split alloc).2).1.2)
        = none) ∧
    (((s2.split (s1.split alloc).2).1.1).unsplit ((s1.split alloc).1.2)
        = none) := by
  refine ⟨?_, ?_, ?_, ?_, ?_⟩
  · intro rh wh
    by_cases h : rh.is_pair_of wh = true
    · simp [RHalf.unsplit, h]
    · simp [RHalf.unsplit, Bool.eq_false_iff.mpr h]
  all_goals
    simp [Splittable.split, Splittable.new, RHalf.new, WHalf.new,
      RHalf.unsplit, RHalf.is_pair_of, Arc.ptr_eq]

/-- C4: round-trip law — for the two halves of one `split` call, `unsplit`
returns a combined object holding exactly the original `r` and `w`, and
splitting that reconstructed object again (at the advanced allocator state)
produces a token with an address distinct from the original token's. -/
theorem unsplit_roundtrip_and_fresh_token {R W : Type} (s : Splittable R W)
    (alloc : Nat) :
    ((s.split alloc).1.1.unsplit (s.split alloc).1.2
        = some (Splittable.new s.r s.w)) ∧
    (((Splittable.new s.r s.w).split (s.split alloc).2).1.1.k.id
        ≠ (s.split alloc).1.1.k.id) := by
  constructor
  · simp [Splittable.split, Splittable.new, RHalf.new, WHalf.new,
      RHalf.unsplit, RHalf.is_pair_of, Arc.ptr_eq]
  · simp [Splittable.split, Splittable.new, RHalf.new]

/-- C5: `is_pair_of` is symmetric for every read half and write half,
matching or not: `read_half.is_pair_of(write_half)` equals
`write_half.is_pair_of(read_half)`. -/
theorem is_pair_of_symmetric {R W : Type} (rh : RHalf R W) (wh : WHalf R W) :
    rh.is_pair_of wh = wh.is_pair_of rh := by
  rfl

/-- C6: `split` never fails (it is a total function) and allocates exactly
one fresh token per call: the two returned halves hold a handle to the same
token, that token's address is the freshly allocated one (so it differs from
every address allocated earlier in the trace), and the allocator advances by
exactly one. -/
theorem split_allocates_one_fresh_shared_token {R W : Type}
    (s : Splittable R W) (alloc : Nat) :
    ((s.split alloc).1.1.k = (s.split alloc).1.2.k) ∧
    ((s.split alloc).1.1.k.id = alloc) ∧
    ((s.split alloc).2 = alloc + 1) ∧
    (∀ t : Nat, t < alloc → (s.split alloc).1.1.k.id ≠ t) := by
  refine ⟨rfl, rfl, rfl, ?_⟩
  intro t ht
  simp only [Splittable.split, RHalf.new]
  omega

/-- Witness for C6 at a concrete input: the token of a split performed at
allocator state `2` is shared by both halves and is distinct from the
previously allocated address `1`. -/
theorem split_allocates_one_fresh_shared_token_witness :
    (((Splittable.new (0 : Nat) (0 : Nat)).split 2).1.1.k
        = ((Splittable.new (0 : Nat) (0 : Nat)).split 2).1.2.k) ∧
    (((Splittable.new (0 : Nat) (0 : Nat)).split 2).1.1.k.id ≠ 1) := by
  have h := split_allocates_one_fresh_shared_token
    (Splittable.new (0 : Nat) (0 : Nat)) 2
  exact ⟨h.1, h.2.2.2 1 (by decide)⟩

/-- C7: `new(r, w)` wraps the two supplied parts unchanged for any input
values, and the borrow accessors `get_r` / `get_w` return the stored parts —
equal to the values a subsequent `split()` places in the read half and the
write half. -/
theorem new_wraps_and_accessors_agree_with_split {R W : Type} (r : R) (w : W)
    (s : Splittable R W) (alloc : Nat) :
    ((Splittable.new r w).get_r = r) ∧
    ((Splittable.new r w).get_w = w) ∧
    ((s.split alloc).1.1.r = s.get_r) ∧
    ((s.split alloc).1.2.w = s.get_w) := by
  exact ⟨rfl, rfl, rfl, rfl⟩

/-- C8: `write_half.unsplit(read_half)` delegates to the same pairing check
as `read_half.unsplit(write_half)` and produces the identical result — the
same reconstructed combined object on a match and the same fatal mismatch
signal otherwise. -/
theorem whalf_unsplit_delegates_to_rhalf {R W : Type} (wh : WHalf R W)
    (rh : RHalf R W) :
    wh.unsplit rh = rh.unsplit wh ∧ wh.is_pair_of rh = rh.is_pair_of wh := by
  exact ⟨rfl, rfl⟩

/-- C10: on an unsplit combined object, both the immutable and the mutable
transparent dereference expose the read part only: `deref` returns the read
part, writing through the mutable dereference updates the read part and
leaves the write part unchanged, and the write part is exposed by
`get_w` / `get_w_mut`. -/
theorem combined_deref_exposes_read_part_only {R W : Type}
    (s : Splittable R W) (x : R) (y : W) :
    (s.deref = s.get_r) ∧
    ((s.deref_mut_set x).r = x) ∧
    ((s.deref_mut_set x).w = s.w) ∧
    ((s.get_w_mut_set y).w = y) ∧
    ((s.get_w_mut_set y).r = s.r) ∧
    (s.get_w = s.w) := by
  exact ⟨rfl, rfl, rfl, rfl, rfl, rfl⟩

end SfoSplit
